import Mathlib

/-!
Verification of the query-metadata resolution and typed-decoding subsystem of
sqlx, shallowly embedded from the Rust sources:

* `sqlx-core/src/decode.rs` — the `Decode` contract and its `Option<T>` impl;
* `sqlx-macros-core/src/query/mod.rs` — data-source resolution
  (`expand_input`), driver dispatch (`matches_driver` and the driver loop),
  and binding generation (`expand_with_data`).

The modules `query/metadata.rs`, `query/input.rs`, `query/data.rs`,
`query/args.rs` and `query/output.rs` are not part of the provided sources;
the record types they define are modelled from the specification, and their
functions (`hash_string`, `DynQueryData::from_data_file`, `quote_args`,
`columns_to_rust`, `quote_query_as`, `quote_query_scalar`, `QueryData::save_in`)
together with the process environment and the filesystem are abstracted as
fields of explicit environment records, so every theorem quantifies over
their behaviour.  Machine effects (environment variables, `fs::metadata`,
file existence, cache writes) are made explicit: `expand_with_data` returns
the list of directories it wrote to alongside the generated binding.
-/

namespace Sqlx

/-! ## Decode capability (`sqlx-core/src/decode.rs`) -/

/-- Embeds the blanket impl `Decode for Option<T>` (decode.rs lines 100–106).
`is_null` is the `ValueRef::is_null` test on the raw value type `V`, and
`decodeT` is the inner type's `Decode::decode`.  The Rust body is:
`if value.is_null() { Ok(None) } else { Ok(Some(T::decode(value)?)) }`. -/
def decodeOption {V E T : Type} (is_null : V → Bool) (decodeT : V → Except E T)
    (value : V) : Except E (Option T) :=
  if is_null value then
    .ok none
  else
    match decodeT value with
    | .ok t => .ok (some t)
    | .error e => .error e

/-- Embeds `accepts` of the `Option<T>` impl (decode.rs lines 96–98): it
delegates unchanged to the inner type's `accepts`. -/
def acceptsOption {TI : Type} (acceptsT : TI → Bool) : TI → Bool :=
  acceptsT

/-! ## Data model for the query macro pipeline -/

/-- Backend type information.  The `TypeInfo` trait is external to the provided
sources; `expand_with_data` only consults `is_void` (mod.rs line 196), so a
type tag is modelled as a name plus its void flag. -/
structure TypeInfo where
  name : String
  is_void : Bool
deriving DecidableEq

/-- One result column of a `Describe` (`Column` trait: a name and its type
information). -/
structure Col where
  name : String
  type_info : TypeInfo
deriving DecidableEq

/-- The part of `Describe<DB>` consumed by `expand_with_data`:
`parameters()` returns `Option<Either<Vec<TypeInfo>, usize>>` and `columns()`
the list of result columns. -/
structure Describe where
  parameters : Option (List TypeInfo ⊕ Nat)
  columns : List Col

/-- Embeds `QueryData<DB>` (query/data.rs, not in the provided sources): only its
`describe` field and its `save_in` method are used by `expand_with_data`;
`save_in` is abstracted in `MacroEnv`. -/
structure QueryData where
  describe : Describe

/-- Modelled from the spec: the deserialized cache artifact
(`DynQueryData`, query/data.rs is absent).  Dispatch only reads its
`db_name` — the artifact's owning driver name. -/
structure DynQueryData where
  db_name : String
deriving DecidableEq

/-- Modelled from the spec: the requested output record shape
(query/input.rs is absent).  `expand_with_data` matches on exactly these
three constructors (mod.rs lines 205–253); the fourth spec shape, void, is
inferred from the columns, not requested. -/
inductive RecordType where
  | generated
  | given (ty : String)
  | scalar
deriving DecidableEq

/-- Modelled from the spec: the parsed macro input (query/input.rs is
absent) — the literal query text, the argument expressions supplied at the
call site (kept abstract as strings), and the requested record shape. -/
structure QueryMacroInput where
  sql : String
  arg_exprs : List String
  record_type : RecordType

/-- Modelled from the spec: the process-wide metadata record
(query/metadata.rs is absent).  `expand_input` reads the offline flag, the
optional database URL, the manifest directory, the workspace root and the
name of the database-URL variable (`url_var`).  Paths are modelled as lists
of components; `join` is list append. -/
structure Metadata where
  offline : Bool
  database_url : Option String
  manifest_dir : List String
  workspace_root : List String
  url_var : String

/-- The scheme component of a parsed URL; `matches_driver` only reads
`Url::scheme()`. -/
structure ParsedUrl where
  scheme : String
deriving DecidableEq

/-- Errors of one macro expansion.  In the Rust code every failure path in
mod.rs is either the `?`-propagated URL parse error, a `?`-propagated error
from loading or converting cached data, or a `format!(…).into()` string
error; the string errors keep their exact message text. -/
inductive ExpandError where
  | urlParse
  | loadData (s : String)
  | message (s : String)
deriving DecidableEq

/-- Embeds `QueryDataSource` (mod.rs lines 48–54): either a live connection string
with its parsed URL, or loaded cached data. -/
inductive QueryDataSource where
  | live (database_url : String) (database_url_parsed : ParsedUrl)
  | cached (data : DynQueryData)
deriving DecidableEq

/-! ## Data source resolution (`expand_input`, mod.rs lines 75–136) -/

/-- The ambient machine state read by `expand_input`: the process environment
(`env`, mod.rs lines 304–315), `Path::exists`, `DynQueryData::from_data_file`
(query/data.rs, absent — kept abstract), `Url::parse` from the external `url`
crate (fallible, hence `Option`), and `hash_string` (query/data.rs, absent —
an arbitrary deterministic function of the query text). -/
structure ResolveEnv where
  envVar : String → Option String
  file_exists : List String → Bool
  loadDataFile : List String → String → Except ExpandError DynQueryData
  parseUrl : String → Option ParsedUrl
  hash_string : String → String

/-- The offline cache-miss message (mod.rs line 104). -/
def offlineCacheMissMsg : String :=
  "`SQLX_OFFLINE=true` but there is no cached data for this query, run `cargo sqlx prepare` (with `sqlx-cli` installed) to update the query cache or unset `SQLX_OFFLINE`"

/-- The online cache-miss message (mod.rs line 106), parameterized by
`meta.url_var()`. -/
def onlineCacheMissMsg (url_var : String) : String :=
  "set `" ++ url_var ++ "` to use query macros online, or run `cargo sqlx prepare` (with `sqlx-cli` installed) to update the query cache"

/-- The cache file name `format!("query-{}.json", hash_string(&input.sql))`
(mod.rs line 88). -/
def cacheFilename (E : ResolveEnv) (sql : String) : String :=
  "query-" ++ E.hash_string sql ++ ".json"

/-- The `dirs` array of candidate cache directories (mod.rs lines 91–95):
`SQLX_OFFLINE_DIR` if set, then the local `.sqlx`, then the workspace
`.sqlx`. -/
def candidate_dirs (E : ResolveEnv) (meta : Metadata) : List (Option (List String)) :=
  [ (E.envVar "SQLX_OFFLINE_DIR").map (fun d => [d])
  , some (meta.manifest_dir ++ [".sqlx"])
  , some (meta.workspace_root ++ [".sqlx"]) ]

/-- The candidate cache file paths, in search order: each present directory
joined with the cache file name (mod.rs lines 96–99). -/
def cachePaths (E : ResolveEnv) (meta : Metadata) (sql : String) : List (List String) :=
  ((candidate_dirs E meta).filterMap id).map (fun p => p ++ [cacheFilename E sql])

/-- The cached branch of `expand_input` (mod.rs lines 86–112): find the first
existing candidate file; if none exists fail with the mode-specific message,
otherwise load it as a `Cached` source. -/
def resolveCached (E : ResolveEnv) (meta : Metadata) (sql : String) :
    Except ExpandError QueryDataSource :=
  match (cachePaths E meta sql).find? E.file_exists with
  | some data_file_path => (E.loadDataFile data_file_path sql).map .cached
  | none =>
      .error (.message
        (if meta.offline then offlineCacheMissMsg else onlineCacheMissMsg meta.url_var))

/-- The data-source match of `expand_input` (mod.rs lines 79–113): the first
arm fires exactly on `Metadata { offline: false, database_url: Some(db_url), .. }`
and resolves live (`QueryDataSource::live` parses the URL with `?`); every
other metadata goes to the cached branch. -/
def resolveDataSource (E : ResolveEnv) (meta : Metadata) (sql : String) :
    Except ExpandError QueryDataSource :=
  match meta.offline, meta.database_url with
  | false, some db_url =>
      match E.parseUrl db_url with
      | some parsed => .ok (.live db_url parsed)
      | none => .error .urlParse
  | _, _ => resolveCached E meta sql

/-! ## Driver dispatch (mod.rs lines 29–73 and 115–135) -/

/-- Embeds `QueryDriver` (mod.rs lines 30–34): backend name, accepted URL schemes,
and the expansion function.  The generated `TokenStream` is abstracted as a
type parameter `α`. -/
structure QueryDriver (α : Type) where
  db_name : String
  url_schemes : List String
  expand : QueryMacroInput → QueryDataSource → Except ExpandError α

/-- Embeds `QueryDataSource::matches_driver` (mod.rs lines 64–72): a live source
matches when the parsed URL's scheme is in the driver's scheme list
(case-sensitive string comparison), a cached source when the artifact's
`db_name` equals the driver's name. -/
def matches_driver {α : Type} (ds : QueryDataSource) (driver : QueryDriver α) : Bool :=
  match ds with
  | .live _ database_url_parsed => driver.url_schemes.contains database_url_parsed.scheme
  | .cached dyn_data => dyn_data.db_name == driver.db_name

/-- Models Rust's `{:?}` formatting of a string in the two no-driver
messages: the string surrounded by double quotes (character escaping inside
the string is not modelled). -/
def rustDebugStr (s : String) : String :=
  "\"" ++ s ++ "\""

/-- The no-matching-driver message for a live source (mod.rs lines 125–128). -/
def noDriverLiveMsg (scheme : String) : String :=
  "no database driver found matching URL scheme " ++ rustDebugStr scheme ++ "; the corresponding Cargo feature may need to be enabled"

/-- The no-matching-driver message for cached data (mod.rs lines 130–133). -/
def noDriverCachedMsg (db_name : String) : String :=
  "found cached data for database " ++ rustDebugStr db_name ++ " but no matching driver; the corresponding Cargo feature may need to be enabled"

/-- The dispatch loop of `expand_input` (mod.rs lines 115–135): iterate the
drivers in order, invoke the expansion function of the first one matching the
data source, and if none matches fail with the source-specific message. -/
def dispatchDrivers {α : Type} (drivers : List (QueryDriver α))
    (input : QueryMacroInput) (ds : QueryDataSource) : Except ExpandError α :=
  match drivers.find? (fun driver => matches_driver ds driver) with
  | some driver => driver.expand input ds
  | none =>
      match ds with
      | .live _ database_url_parsed =>
          .error (.message (noDriverLiveMsg database_url_parsed.scheme))
      | .cached data => .error (.message (noDriverCachedMsg data.db_name))

/-- Embeds `expand_input` (mod.rs lines 75–136): resolve the data source, then
dispatch to the first matching driver. -/
def expand_input {α : Type} (E : ResolveEnv) (meta : Metadata)
    (drivers : List (QueryDriver α)) (input : QueryMacroInput) : Except ExpandError α :=
  match resolveDataSource E meta input.sql with
  | .error e => .error e
  | .ok data_source => dispatchDrivers drivers input data_source

/-! ## Binding generation (`expand_with_data`, mod.rs lines 164–302) -/

/-- Modelled from the spec: the inferred host type of one output column
(query/output.rs is absent).  A wildcard is a column type that could not be
resolved to a concrete host type. -/
inductive RustColType where
  | wildcard
  | typed (ty : String)
deriving DecidableEq

/-- Embeds `is_wildcard` on an inferred column type. -/
def RustColType.is_wildcard : RustColType → Bool
  | .wildcard => true
  | .typed _ => false

/-- Modelled from the spec: one output column as mapped to Rust
(`RustColumn`, query/output.rs is absent): a field identifier and its
inferred type. -/
structure RustColumn where
  ident : String
  type_ : RustColType
deriving DecidableEq

/-- Embeds `io::ErrorKind`, reduced to the distinction `expand_with_data` makes
(mod.rs line 279): `NotFound` versus anything else. -/
inductive IoErrorKind where
  | notFound
  | other
deriving DecidableEq

/-- An `io::Error`: its kind and its `Display` text (used in the
`format!("{e}: {dir}")` message). -/
structure IoError where
  kind : IoErrorKind
  msg : String
deriving DecidableEq

/-- Embeds `fs::Metadata`, reduced to the only query made of it: `is_dir()`. -/
structure FsMeta where
  is_dir : Bool
deriving DecidableEq

/-- The machine state and the absent helper functions consumed by
`expand_with_data`: the process environment, `fs::metadata`,
`args::quote_args` (query/args.rs, absent), `output::columns_to_rust`,
`output::quote_query_as` and `output::quote_query_scalar` (query/output.rs,
absent; `quote_query_as` is infallible in the source, the other two return
`Result`), and `QueryData::save_in` (query/data.rs, absent).  `α` is the
abstract `TokenStream` type. -/
structure MacroEnv (α : Type) where
  envVar : String → Option String
  fs_metadata : List String → Except IoError FsMeta
  quote_args : QueryMacroInput → Describe → Except ExpandError α
  columns_to_rust : Describe → Except ExpandError (List RustColumn)
  quote_query_as : QueryMacroInput → String → List RustColumn → α
  quote_query_scalar : QueryMacroInput → Describe → Except ExpandError α
  save_in : QueryData → List String → Except ExpandError Unit

/-- The four shapes of the `output` token block built by `expand_with_data`
(mod.rs lines 192–254): the result-discarding `::sqlx::query_with` call when
every column is void, a synthesized record (its field list, one per entry of
`columns_to_rust`, plus the `quote_query_as` tokens), a user-supplied record,
or a scalar query. -/
inductive QueryOutput (α : Type) where
  | query_with
  | generated_record (fields : List RustColumn) (query_as : α)
  | given_record (query_as : α)
  | scalar_query (tokens : α)

/-- The generated binding: the argument tokens and the output block wrapped
into `ret_tokens` (mod.rs lines 256–267). -/
structure Binding (α : Type) where
  args_tokens : α
  output : QueryOutput α

/-- The expected parameter count (mod.rs lines 173–178): the length of an
explicit parameter list, a bare count, or unknown. -/
def num_parameters (d : Describe) : Option Nat :=
  match d.parameters with
  | some (.inl params) => some params.length
  | some (.inr num) => some num
  | none => none

/-- The arity error `format!("expected {} parameters, got {}", …)`
(mod.rs line 183). -/
def arityErrorMsg (num found : Nat) : String :=
  "expected " ++ toString num ++ " parameters, got " ++ toString found

/-- The wildcard error (mod.rs lines 213–218). -/
def wildcardErrorMsg : String :=
  "wildcard overrides are only allowed with an explicit record type, e.g. `query_as!()` and its variants"

/-- The missing-offline-dir error (mod.rs line 284). -/
def offlinePathNotExistMsg (dir : String) : String :=
  "sqlx offline path does not exist: " ++ dir

/-- The not-a-directory error (mod.rs lines 288–291). -/
def offlinePathNotDirMsg (dir : String) : String :=
  "sqlx offline path exists, but is not a directory: " ++ dir

/-- The `format!("{e}: {dir}")` error for a non-`NotFound` `fs::metadata`
failure (mod.rs line 281). -/
def fsMetadataErrMsg (e : IoError) (dir : String) : String :=
  e.msg ++ ": " ++ dir

/-- The `output` selection of `expand_with_data` (mod.rs lines 192–254):
if every column's type is void the result-discarding query is emitted,
otherwise the requested record shape is consulted; the generated-record
branch rejects any wildcard column. -/
def compute_output {α : Type} (E : MacroEnv α) (input : QueryMacroInput)
    (d : Describe) : Except ExpandError (QueryOutput α) :=
  if d.columns.all (fun c => c.type_info.is_void) then
    .ok .query_with
  else
    match input.record_type with
    | .generated =>
        match E.columns_to_rust d with
        | .error e => .error e
        | .ok columns =>
            if columns.any (fun c => c.type_.is_wildcard) then
              .error (.message wildcardErrorMsg)
            else
              .ok (.generated_record columns (E.quote_query_as input "Record" columns))
    | .given out_ty =>
        match E.columns_to_rust d with
        | .error e => .error e
        | .ok columns => .ok (.given_record (E.quote_query_as input out_ty columns))
    | .scalar =>
        match E.quote_query_scalar input d with
        | .error e => .error e
        | .ok tokens => .ok (.scalar_query tokens)

/-- The persistence step of `expand_with_data` (mod.rs lines 269–299):
only when the build is online and `SQLX_OFFLINE_DIR` is set is anything
written; the directory must exist and be a directory or the step fails.
Returns the list of directories written to. -/
def persist_data {α : Type} (E : MacroEnv α) (data : QueryData) (offline : Bool) :
    Except ExpandError (List (List String)) :=
  if !offline then
    match E.envVar "SQLX_OFFLINE_DIR" with
    | some dir =>
        match E.fs_metadata [dir] with
        | .error e =>
            if e.kind != .notFound then
              .error (.message (fsMetadataErrMsg e dir))
            else
              .error (.message (offlinePathNotExistMsg dir))
        | .ok meta =>
            if !meta.is_dir then
              .error (.message (offlinePathNotDirMsg dir))
            else
              match E.save_in data [dir] with
              | .error e => .error e
              | .ok _ => .ok [[dir]]
    | none => .ok []
  else
    .ok []

/-- The tail of `expand_with_data` after the arity check (mod.rs lines
188–301): quote the arguments, build the output block, run the persistence
step, and return the binding together with the directories written. -/
def expand_checked {α : Type} (E : MacroEnv α) (input : QueryMacroInput)
    (data : QueryData) (offline : Bool) :
    Except ExpandError (Binding α × List (List String)) :=
  match E.quote_args input data.describe with
  | .error e => .error e
  | .ok args_tokens =>
      match compute_output E input data.describe with
      | .error e => .error e
      | .ok output =>
          match persist_data E data offline with
          | .error e => .error e
          | .ok writes => .ok ({ args_tokens := args_tokens, output := output }, writes)

/-- Embeds `expand_with_data` (mod.rs lines 164–302): check the arity when the
parameter count is known, then proceed as `expand_checked`. -/
def expand_with_data {α : Type} (E : MacroEnv α) (input : QueryMacroInput)
    (data : QueryData) (offline : Bool) :
    Except ExpandError (Binding α × List (List String)) :=
  match num_parameters data.describe with
  | some num =>
      if num != input.arg_exprs.length then
        .error (.message (arityErrorMsg num input.arg_exprs.length))
      else
        expand_checked E input data offline
  | none => expand_checked E input data offline

/-! ## Concrete instances

Closed environments, metadata records, drivers and inputs used to evaluate
the definitions at concrete inputs. -/

/-- A resolution environment with no environment variables, no existing
files, and a URL parser that always fails — mirroring `Url::parse` on a
scheme-less string such as `"postgres"` (a `RelativeUrlWithoutBase` error in
the `url` crate). -/
def cexEnv : ResolveEnv where
  envVar := fun _ => none
  file_exists := fun _ => false
  loadDataFile := fun _ _ => .error (.loadData "io")
  parseUrl := fun _ => none
  hash_string := fun _ => "cafe"

/-- Online metadata whose configured database URL is not a parseable URL. -/
def cexMeta : Metadata where
  offline := false
  database_url := some "postgres"
  manifest_dir := ["crate"]
  workspace_root := ["ws"]
  url_var := "DATABASE_URL"

/-- Offline metadata with no database URL. -/
def offlineMeta : Metadata where
  offline := true
  database_url := none
  manifest_dir := ["crate"]
  workspace_root := ["ws"]
  url_var := "DATABASE_URL"

/-- Online metadata with no database URL configured. -/
def onlineMeta : Metadata where
  offline := false
  database_url := none
  manifest_dir := ["crate"]
  workspace_root := ["ws"]
  url_var := "DATABASE_URL"

/-- A resolution environment where `SQLX_OFFLINE_DIR` is set to `override`,
the cache file exists both in the override directory and in the workspace
`.sqlx` directory, and loading returns a different owning driver name per
directory, so the directory whose content is used is observable. -/
def overrideEnv : ResolveEnv where
  envVar := fun name => if name == "SQLX_OFFLINE_DIR" then some "override" else none
  file_exists := fun p =>
    p == ["override", "query-cafe.json"] || p == ["ws", ".sqlx", "query-cafe.json"]
  loadDataFile := fun p _ =>
    if p == ["override", "query-cafe.json"] then .ok { db_name := "postgres" }
    else .ok { db_name := "mysql" }
  parseUrl := fun _ => none
  hash_string := fun _ => "cafe"

/-- A postgres driver over `String` token streams. -/
def pgDriver : QueryDriver String where
  db_name := "postgres"
  url_schemes := ["postgres", "postgresql"]
  expand := fun _ _ => .ok "pg tokens"

/-- A mysql driver over `String` token streams. -/
def myDriver : QueryDriver String where
  db_name := "mysql"
  url_schemes := ["mysql", "mariadb"]
  expand := fun _ _ => .ok "my tokens"

/-- A concrete macro input requesting a generated record with no arguments. -/
def someInput : QueryMacroInput where
  sql := "SELECT 1"
  arg_exprs := []
  record_type := .generated

/-- A concrete macro input requesting a scalar with no arguments. -/
def scalarInput : QueryMacroInput where
  sql := "SELECT 1"
  arg_exprs := []
  record_type := .scalar

/-- A concrete macro input with one argument expression. -/
def oneArgInput : QueryMacroInput where
  sql := "SELECT $1"
  arg_exprs := ["x"]
  record_type := .generated

/-- A macro environment over `String` token streams where every absent
helper succeeds and no environment variable is set. -/
def trivialMacroEnv : MacroEnv String where
  envVar := fun _ => none
  fs_metadata := fun _ => .error { kind := .notFound, msg := "No such file or directory" }
  quote_args := fun _ _ => .ok "args tokens"
  columns_to_rust := fun d =>
    .ok (d.columns.map (fun c => { ident := c.name, type_ := .typed c.type_info.name }))
  quote_query_as := fun _ _ _ => "query_as tokens"
  quote_query_scalar := fun _ _ => .ok "scalar tokens"
  save_in := fun _ _ => .ok ()

/-- As `trivialMacroEnv` but `columns_to_rust` infers a wildcard column. -/
def wildcardMacroEnv : MacroEnv String :=
  { trivialMacroEnv with
    columns_to_rust := fun _ => .ok [{ ident := "x", type_ := .wildcard }] }

/-- As `trivialMacroEnv` but `SQLX_OFFLINE_DIR` is set while the directory
does not exist (`fs::metadata` fails with `NotFound`). -/
def missingDirMacroEnv : MacroEnv String :=
  { trivialMacroEnv with
    envVar := fun name => if name == "SQLX_OFFLINE_DIR" then some "sqlx-cache" else none }

/-- As `missingDirMacroEnv` but the offline path exists and is not a
directory. -/
def notDirMacroEnv : MacroEnv String :=
  { missingDirMacroEnv with fs_metadata := fun _ => .ok { is_dir := false } }

/-- As `missingDirMacroEnv` but the offline path exists and is a directory. -/
def goodDirMacroEnv : MacroEnv String :=
  { missingDirMacroEnv with fs_metadata := fun _ => .ok { is_dir := true } }

/-- A non-void integer column. -/
def intCol : Col where
  name := "id"
  type_info := { name := "INT4", is_void := false }

/-- A describe with a bare parameter count of two and no columns. -/
def twoParamDescribe : Describe where
  parameters := some (.inr 2)
  columns := []

/-- A describe with unknown parameters and no columns (vacuously all-void). -/
def emptyDescribe : Describe where
  parameters := none
  columns := []

/-- A describe with unknown parameters and one non-void column. -/
def oneColDescribe : Describe where
  parameters := none
  columns := [intCol]

/-! ## Theorems -/

/-- C1: decoding a raw value into `Option T` yields `Ok(None)` on a null raw
value without ever invoking the inner decode (the result is `Ok(None)` for
every inner decoder), and on a non-null raw value it yields exactly the
result of the inner decode wrapped in `Some`, with inner errors propagating
unchanged. -/
theorem decode_option_null_short_circuit (V E T : Type) (is_null : V → Bool)
    (f : V → Except E T) (v : V) :
    (is_null v = true → ∀ g : V → Except E T, decodeOption is_null g v = .ok none) ∧
    (is_null v = false →
      (∀ t, f v = .ok t → decodeOption is_null f v = .ok (some t)) ∧
      (∀ e, f v = .error e → decodeOption is_null f v = .error e)) := by
  refine ⟨fun h g => by simp [decodeOption, h], fun h => ⟨fun t ht => ?_, fun e he => ?_⟩⟩
  · simp [decodeOption, h, ht]
  · simp [decodeOption, h, he]

/-- Witness for C1 at concrete inputs: raw values are naturals, `0` is the
null value, and the inner decoder adds one. -/
theorem decode_option_null_short_circuit_witness :
    decodeOption (fun n : Nat => n == 0) (fun _ : Nat => (.error "boom" : Except String Nat)) 0
      = .ok none ∧
    decodeOption (fun n : Nat => n == 0) (fun n : Nat => (.ok (n + 1) : Except String Nat)) 2
      = .ok (some 3) ∧
    decodeOption (fun n : Nat => n == 0) (fun _ : Nat => (.error "boom" : Except String Nat)) 2
      = .error "boom" := by
  refine ⟨?_, ?_, ?_⟩
  · exact (decode_option_null_short_circuit Nat String Nat (fun n => n == 0)
      (fun _ => .error "boom") 0).1 (by decide) _
  · exact ((decode_option_null_short_circuit Nat String Nat (fun n => n == 0)
      (fun n => .ok (n + 1)) 2).2 (by decide)).1 3 rfl
  · exact ((decode_option_null_short_circuit Nat String Nat (fun n => n == 0)
      (fun _ => .error "boom") 2).2 (by decide)).2 "boom" rfl

/-- Helper: the cached branch never yields a live data source. -/
theorem resolveCached_ne_live (E : ResolveEnv) (meta : Metadata) (sql : String)
    (u : String) (p : ParsedUrl) : resolveCached E meta sql ≠ .ok (.live u p) := by
  unfold resolveCached
  cases h : (cachePaths E meta sql).find? E.file_exists with
  | none => simp
  | some path =>
      cases hl : E.loadDataFile path sql with
      | ok d => simp [hl, Except.map]
      | error e => simp [hl, Except.map]

/-- Helper: whenever the first match arm of `expand_input` does not fire
(offline, or no URL), resolution is the cached branch. -/
theorem resolveDataSource_eq_cached (E : ResolveEnv) (meta : Metadata) (sql : String)
    (h : meta.offline = true ∨ meta.database_url = none) :
    resolveDataSource E meta sql = resolveCached E meta sql := by
  rcases meta with ⟨o, u, md, wr, uv⟩
  rcases h with h | h
  · simp only at h
    subst h
    cases u <;> rfl
  · simp only at h
    subst h
    cases o <;> rfl

/-- C2 (amended): resolution yields a `Live` source exactly when the mode is
not offline, a database URL is configured, and that URL parses; when it is
not offline and a URL is configured but the URL does not parse, resolution
fails with the URL parse error (still without attempting the cache); in
every other case (offline, or no URL) resolution is exactly the cached-
artifact lookup. -/
theorem resolve_live_iff (E : ResolveEnv) (meta : Metadata) (sql : String) :
    ((∃ u p, resolveDataSource E meta sql = .ok (.live u p)) ↔
      (meta.offline = false ∧
        ∃ u, meta.database_url = some u ∧ (E.parseUrl u).isSome = true)) ∧
    (∀ u, meta.offline = false → meta.database_url = some u → E.parseUrl u = none →
      resolveDataSource E meta sql = .error .urlParse) ∧
    ((meta.offline = true ∨ meta.database_url = none) →
      resolveDataSource E meta sql = resolveCached E meta sql) := by
  refine ⟨?_, ?_, resolveDataSource_eq_cached E meta sql⟩
  · constructor
    · rintro ⟨u, p, h⟩
      rcases ho : meta.offline with _ | _
      · rcases hu : meta.database_url with _ | u0
        · rw [resolveDataSource_eq_cached E meta sql (Or.inr hu)] at h
          exact absurd h (resolveCached_ne_live E meta sql u p)
        · refine ⟨rfl, u0, rfl, ?_⟩
          rcases meta with ⟨o, du, md, wr, uv⟩
          simp only at ho hu
          subst ho; subst hu
          cases hp : E.parseUrl u0 with
          | none => simp [resolveDataSource, hp] at h
          | some q => simp [hp]
      · rw [resolveDataSource_eq_cached E meta sql (Or.inl ho)] at h
        exact absurd h (resolveCached_ne_live E meta sql u p)
    · rintro ⟨ho, u, hu, hp⟩
      rcases meta with ⟨o, du, md, wr, uv⟩
      simp only at ho hu
      subst ho; subst hu
      rcases hq : E.parseUrl u with _ | q
      · rw [hq] at hp; simp at hp
      · exact ⟨u, q, by simp [resolveDataSource, hq]⟩
  · intro u ho hu hp
    rcases meta with ⟨o, du, md, wr, uv⟩
    simp only at ho hu
    subst ho; subst hu
    simp [resolveDataSource, hp]

/-- Counterexample for C2 as literally stated: with a configured but
unparseable database URL in online mode, resolution produces a URL parse
error, not a `Live` data source — so "Live iff not offline and a URL is
configured" fails in the left-to-right completeness direction. -/
theorem resolve_live_iff_cex :
    cexMeta.offline = false ∧
    cexMeta.database_url = some "postgres" ∧
    resolveDataSource cexEnv cexMeta "SELECT 1" = .error .urlParse :=
  ⟨rfl, rfl, rfl⟩

/-- Witness for C2's amended theorem at concrete inputs: offline metadata
resolves via the cached branch, and online metadata with a parseable URL
resolves live. -/
theorem resolve_live_iff_witness :
    resolveDataSource cexEnv offlineMeta "SELECT 1" = resolveCached cexEnv offlineMeta "SELECT 1" ∧
    resolveDataSource overrideEnv cexMeta "SELECT 1" = .error .urlParse := by
  constructor
  · exact (resolve_live_iff cexEnv offlineMeta "SELECT 1").2.2 (Or.inl rfl)
  · exact (resolve_live_iff overrideEnv cexMeta "SELECT 1").2.1 "postgres" rfl rfl rfl

/-- C3: when resolving a cached artifact the three candidate directories are
searched in strict priority order — the `SQLX_OFFLINE_DIR` override, the
local (manifest) `.sqlx` directory, the workspace-root `.sqlx` directory —
and the first one containing the expected file wins.  The first conjunct
places no condition on the other directories: if the file also exists in the
workspace cache, the override directory's content is still the one loaded. -/
theorem cache_search_priority (E : ResolveEnv) (meta : Metadata) (sql : String)
    (hbranch : meta.offline = true ∨ meta.database_url = none) :
    (∀ d, E.envVar "SQLX_OFFLINE_DIR" = some d →
        E.file_exists ([d, cacheFilename E sql]) = true →
        resolveDataSource E meta sql
          = (E.loadDataFile ([d, cacheFilename E sql]) sql).map .cached) ∧
    (∀ d, E.envVar "SQLX_OFFLINE_DIR" = some d →
        E.file_exists ([d, cacheFilename E sql]) = false →
        E.file_exists (meta.manifest_dir ++ [".sqlx", cacheFilename E sql]) = true →
        resolveDataSource E meta sql
          = (E.loadDataFile (meta.manifest_dir ++ [".sqlx", cacheFilename E sql]) sql).map .cached) ∧
    (∀ d, E.envVar "SQLX_OFFLINE_DIR" = some d →
        E.file_exists ([d, cacheFilename E sql]) = false →
        E.file_exists (meta.manifest_dir ++ [".sqlx", cacheFilename E sql]) = false →
        E.file_exists (meta.workspace_root ++ [".sqlx", cacheFilename E sql]) = true →
        resolveDataSource E meta sql
          = (E.loadDataFile (meta.workspace_root ++ [".sqlx", cacheFilename E sql]) sql).map .cached) ∧
    (E.envVar "SQLX_OFFLINE_DIR" = none →
        E.file_exists (meta.manifest_dir ++ [".sqlx", cacheFilename E sql]) = true →
        resolveDataSource E meta sql
          = (E.loadDataFile (meta.manifest_dir ++ [".sqlx", cacheFilename E sql]) sql).map .cached) := by
  rw [resolveDataSource_eq_cached E meta sql hbranch]
  refine ⟨?_, ?_, ?_, ?_⟩
  · intro d hdir hex
    simp [resolveCached, cachePaths, candidate_dirs, hdir, List.find?, hex]
  · intro d hdir hex1 hex2
    simp [resolveCached, cachePaths, candidate_dirs, hdir, List.find?, hex1, hex2]
  · intro d hdir hex1 hex2 hex3
    simp [resolveCached, cachePaths, candidate_dirs, hdir, List.find?, hex1, hex2, hex3]
  · intro hdir hex
    simp [resolveCached, cachePaths, candidate_dirs, hdir, List.find?, hex]

/-- Witness for C3 at concrete inputs: the cache file exists in both the
override directory and the workspace cache, with observably different
content; the override directory's content (owning driver `postgres`, not the
workspace's `mysql`) is the one used. -/
theorem cache_search_priority_witness :
    resolveDataSource overrideEnv offlineMeta "SELECT 1"
      = .ok (.cached { db_name := "postgres" }) ∧
    overrideEnv.file_exists ["ws", ".sqlx", "query-cafe.json"] = true := by
  constructor
  · have h := (cache_search_priority overrideEnv offlineMeta "SELECT 1" (Or.inl rfl)).1
      "override" rfl (by decide)
    rw [h]
    rfl
  · decide

/-- Helper: the two no-matching-driver messages are distinct for every
scheme and backend name (their fixed prefixes differ). -/
theorem noDriver_msgs_distinct (s n : String) : noDriverLiveMsg s ≠ noDriverCachedMsg n := by
  intro h
  have h2 := congrArg (fun t => t.data.head?) h
  simp [noDriverLiveMsg, noDriverCachedMsg, rustDebugStr] at h2

/-- Helper: a dispatch over drivers none of which matches the data source
fails with the source-specific no-driver message. -/
theorem dispatch_no_match {α : Type} (drivers : List (QueryDriver α))
    (input : QueryMacroInput) (ds : QueryDataSource)
    (h : ∀ d ∈ drivers, matches_driver ds d = false) :
    dispatchDrivers drivers input ds
      = match ds with
        | .live _ p => .error (.message (noDriverLiveMsg p.scheme))
        | .cached data => .error (.message (noDriverCachedMsg data.db_name)) := by
  have hfind : drivers.find? (fun dr => matches_driver ds dr) = none := by
    rw [List.find?_eq_none]
    intro d hd
    simp [h d hd]
  unfold dispatchDrivers
  rw [hfind]
  cases ds <;> rfl

/-- Helper: dispatch invokes the expansion function of the first matching
driver, in list order. -/
theorem dispatch_first_match {α : Type} (pre post : List (QueryDriver α))
    (d : QueryDriver α) (input : QueryMacroInput) (ds : QueryDataSource)
    (hpre : ∀ d2 ∈ pre, matches_driver ds d2 = false)
    (hd : matches_driver ds d = true) :
    dispatchDrivers (pre ++ d :: post) input ds = d.expand input ds := by
  have hfind : (pre ++ d :: post).find? (fun dr => matches_driver ds dr) = some d := by
    induction pre with
    | nil => simp [List.find?, hd]
    | cons a l ih =>
        have ha : matches_driver ds a = false := hpre a (by simp)
        simp only [List.cons_append, List.find?, ha]
        exact ih (fun d2 h2 => hpre d2 (by simp [h2]))
  unfold dispatchDrivers
  rw [hfind]

/-- C4: a `Live` source matches a driver exactly when the parsed URL scheme
is a member of its `url_schemes` (case-sensitive string comparison), a
`Cached` source exactly when the artifact's owning driver name equals the
driver's name; dispatch invokes the expansion function of the first matching
driver in registration order, and when no driver matches it fails with one
of two distinct errors — no driver for the URL scheme, or no driver for the
cached backend name. -/
theorem driver_dispatch_spec (α : Type) (input : QueryMacroInput) :
    (∀ (u : String) (p : ParsedUrl) (d : QueryDriver α),
        matches_driver (.live u p) d = true ↔ p.scheme ∈ d.url_schemes) ∧
    (∀ (dd : DynQueryData) (d : QueryDriver α),
        matches_driver (.cached dd) d = true ↔ dd.db_name = d.db_name) ∧
    (∀ (pre post : List (QueryDriver α)) (d : QueryDriver α) (ds : QueryDataSource),
        (∀ d2 ∈ pre, matches_driver ds d2 = false) → matches_driver ds d = true →
        dispatchDrivers (pre ++ d :: post) input ds = d.expand input ds) ∧
    (∀ (drivers : List (QueryDriver α)) (u : String) (p : ParsedUrl),
        (∀ d ∈ drivers, matches_driver (.live u p) d = false) →
        dispatchDrivers drivers input (.live u p)
          = .error (.message (noDriverLiveMsg p.scheme))) ∧
    (∀ (drivers : List (QueryDriver α)) (dd : DynQueryData),
        (∀ d ∈ drivers, matches_driver (.cached dd) d = false) →
        dispatchDrivers drivers input (.cached dd)
          = .error (.message (noDriverCachedMsg dd.db_name))) ∧
    (∀ s n, noDriverLiveMsg s ≠ noDriverCachedMsg n) := by
  refine ⟨?_, ?_, ?_, ?_, ?_, noDriver_msgs_distinct⟩
  · intro u p d
    simp [matches_driver]
  · intro dd d
    simp [matches_driver]
  · exact fun pre post d ds hpre hd => dispatch_first_match pre post d input ds hpre hd
  · intro drivers u p h
    exact dispatch_no_match drivers input (.live u p) h
  · intro drivers dd h
    exact dispatch_no_match drivers input (.cached dd) h

/-- Witness for C4 at concrete inputs: with drivers `[mysql, postgres]` a
live `postgres` URL skips the non-matching mysql driver and invokes the
postgres driver's expansion, and with only the postgres driver registered a
cached `mysql` artifact fails with the cached-data no-driver message. -/
theorem driver_dispatch_spec_witness :
    dispatchDrivers [myDriver, pgDriver] someInput (.live "postgres://localhost" ⟨"postgres"⟩)
      = .ok "pg tokens" ∧
    dispatchDrivers [pgDriver] someInput (.cached { db_name := "mysql" })
      = .error (.message (noDriverCachedMsg "mysql")) := by
  constructor
  · have h := (driver_dispatch_spec String someInput).2.2.1 [myDriver] []
      pgDriver (.live "postgres://localhost" ⟨"postgres"⟩)
      (by intro d2 h2; simp at h2; subst h2; decide) (by decide)
    simpa using h
  · exact (driver_dispatch_spec String someInput).2.2.2.2.1 [pgDriver]
      { db_name := "mysql" } (by intro d hd; simp at hd; subst hd; decide)

/-- Helper: the offline and online cache-miss messages are distinct for
every database-URL variable name (their first characters differ). -/
theorem cacheMiss_msgs_distinct (v : String) :
    offlineCacheMissMsg ≠ onlineCacheMissMsg v := by
  intro h
  have h2 := congrArg (fun t => t.data.head?) h
  simp [offlineCacheMissMsg, onlineCacheMissMsg] at h2

/-- C7: when no cache file exists in any of the three search locations and
no live resolution applies, expansion fails before any driver is consulted,
with a message that differs by mode: offline instructs refreshing the cache
or unsetting `SQLX_OFFLINE`; online instructs setting the database-URL
variable or refreshing the cache.  No binding is produced: `expand_input`
returns the same error for every driver list. -/
theorem cache_miss_error_by_mode {α : Type} (E : ResolveEnv) (meta : Metadata)
    (input : QueryMacroInput)
    (hbranch : meta.offline = true ∨ meta.database_url = none)
    (hmiss : ∀ p ∈ cachePaths E meta input.sql, E.file_exists p = false) :
    resolveDataSource E meta input.sql
      = .error (.message
          (if meta.offline then offlineCacheMissMsg else onlineCacheMissMsg meta.url_var)) ∧
    (∀ drivers : List (QueryDriver α),
        expand_input E meta drivers input
          = .error (.message
              (if meta.offline then offlineCacheMissMsg else onlineCacheMissMsg meta.url_var))) ∧
    (∀ v, offlineCacheMissMsg ≠ onlineCacheMissMsg v) := by
  have hfind : (cachePaths E meta input.sql).find? E.file_exists = none := by
    rw [List.find?_eq_none]
    intro p hp
    simp [hmiss p hp]
  have hres : resolveDataSource E meta input.sql
      = .error (.message
          (if meta.offline then offlineCacheMissMsg else onlineCacheMissMsg meta.url_var)) := by
    rw [resolveDataSource_eq_cached E meta input.sql hbranch]
    unfold resolveCached
    rw [hfind]
  refine ⟨hres, ?_, cacheMiss_msgs_distinct⟩
  intro drivers
  unfold expand_input
  rw [hres]

/-- Witness for C7 at concrete inputs: with no cache files anywhere, offline
metadata yields the offline remediation message and online metadata with no
URL yields the online one naming `DATABASE_URL`. -/
theorem cache_miss_error_by_mode_witness :
    expand_input cexEnv offlineMeta [pgDriver] someInput
      = .error (.message offlineCacheMissMsg) ∧
    expand_input cexEnv onlineMeta [pgDriver] someInput
      = .error (.message (onlineCacheMissMsg "DATABASE_URL")) := by
  constructor
  · have h := (cache_miss_error_by_mode (α := String) cexEnv offlineMeta someInput
      (Or.inl rfl) (by intro p hp; rfl)).2.1 [pgDriver]
    simpa using h
  · have h := (cache_miss_error_by_mode (α := String) cexEnv onlineMeta someInput
      (Or.inr rfl) (by intro p hp; rfl)).2.1 [pgDriver]
    simpa using h

/-- Helper: when the parameter count is unknown or agrees with the supplied
argument count, `expand_with_data` proceeds past the arity check. -/
theorem expand_pass {α : Type} (E : MacroEnv α) (input : QueryMacroInput)
    (data : QueryData) (offline : Bool)
    (h : num_parameters data.describe = none ∨
         num_parameters data.describe = some input.arg_exprs.length) :
    expand_with_data E input data offline = expand_checked E input data offline := by
  unfold expand_with_data
  rcases h with h | h
  · rw [h]
  · rw [h]
    simp

/-- C5: if the resolved metadata declares a known parameter count `n` —
either an explicit per-parameter list of length `n` or a bare count `n` —
and the call site supplies a different number of argument expressions,
expansion fails with the count-mismatch error reporting both counts, and no
binding is produced. -/
theorem arity_mismatch_fails {α : Type} (E : MacroEnv α) (input : QueryMacroInput)
    (data : QueryData) (offline : Bool) (n : Nat)
    (hn : (∃ ps, data.describe.parameters = some (.inl ps) ∧ ps.length = n) ∨
          data.describe.parameters = some (.inr n))
    (hm : n ≠ input.arg_exprs.length) :
    expand_with_data E input data offline
      = .error (.message (arityErrorMsg n input.arg_exprs.length)) := by
  have hnum : num_parameters data.describe = some n := by
    rcases hn with ⟨ps, hps, hlen⟩ | hbare
    · simp [num_parameters, hps, hlen]
    · simp [num_parameters, hbare]
  unfold expand_with_data
  rw [hnum]
  simp [hm]

/-- Witness for C5 at concrete inputs: metadata declaring two parameters
with one argument supplied fails with "expected 2 parameters, got 1". -/
theorem arity_mismatch_fails_witness :
    expand_with_data trivialMacroEnv oneArgInput { describe := twoParamDescribe } true
      = .error (.message "expected 2 parameters, got 1") := by
  have h := arity_mismatch_fails trivialMacroEnv oneArgInput
    { describe := twoParamDescribe } true 2 (Or.inr rfl) (by decide)
  simpa [arityErrorMsg] using h

/-- Helper: a successful expansion's write list is exactly what the
persistence step produced. -/
theorem expand_ok_persist {α : Type} (E : MacroEnv α) (input : QueryMacroInput)
    (data : QueryData) (offline : Bool) (b : Binding α) (ws : List (List String))
    (h : expand_with_data E input data offline = .ok (b, ws)) :
    persist_data E data offline = .ok ws := by
  have h2 : expand_checked E input data offline = .ok (b, ws) := by
    unfold expand_with_data at h
    cases hnum : num_parameters data.describe with
    | none => rw [hnum] at h; exact h
    | some num =>
        rw [hnum] at h
        cases hb : num != input.arg_exprs.length with
        | true => simp [hb] at h
        | false => simpa [hb] using h
  unfold expand_checked at h2
  cases hq : E.quote_args input data.describe with
  | error e => rw [hq] at h2; cases h2
  | ok args =>
      rw [hq] at h2
      cases ho : compute_output E input data.describe with
      | error e => rw [ho] at h2; cases h2
      | ok out =>
          rw [ho] at h2
          cases hp : persist_data E data offline with
          | error e => rw [hp] at h2; cases h2
          | ok ws2 =>
              rw [hp] at h2
              simp only [Except.ok.injEq, Prod.mk.injEq] at h2
              rw [h2.2]

/-- Helper: a successful persistence step either wrote nothing, or the build
was online with `SQLX_OFFLINE_DIR` set and exactly that directory was
written. -/
theorem persist_writes_spec {α : Type} (E : MacroEnv α) (data : QueryData)
    (offline : Bool) (ws : List (List String))
    (h : persist_data E data offline = .ok ws) (hne : ws ≠ []) :
    offline = false ∧ ∃ d, E.envVar "SQLX_OFFLINE_DIR" = some d ∧ ws = [[d]] := by
  unfold persist_data at h
  cases offline with
  | true => simp at h; exact absurd h hne
  | false =>
      refine ⟨rfl, ?_⟩
      simp only [Bool.not_false, if_true] at h
      cases hv : E.envVar "SQLX_OFFLINE_DIR" with
      | none => simp only [hv, Except.ok.injEq] at h; exact absurd h.symm hne
      | some dir =>
          simp only [hv] at h
          refine ⟨dir, rfl, ?_⟩
          cases hm : E.fs_metadata [dir] with
          | error e =>
              simp only [hm] at h
              cases he : e.kind != IoErrorKind.notFound with
              | true => simp [he] at h
              | false => simp [he] at h
          | ok m =>
              simp only [hm] at h
              cases hd : m.is_dir with
              | false => simp [hd] at h
              | true =>
                  simp only [hd, Bool.not_true, if_false] at h
                  cases hs : E.save_in data [dir] with
                  | error e => simp [hs] at h
                  | ok u => simp [hs] at h; exact h.symm

/-- C6: metadata is persisted only when the resolution was online and
`SQLX_OFFLINE_DIR` is configured (first conjunct: any nonempty write list of
a successful expansion implies both, and the written directory is that
variable's value); and when a write is expected, a missing path or a
non-directory path makes the whole expansion fail with the corresponding
error instead of silently skipping the write. -/
theorem persist_write_conditions {α : Type} (E : MacroEnv α)
    (input : QueryMacroInput) (data : QueryData) (offline : Bool) :
    (∀ b ws, expand_with_data E input data offline = .ok (b, ws) → ws ≠ [] →
        offline = false ∧ ∃ d, E.envVar "SQLX_OFFLINE_DIR" = some d ∧ ws = [[d]]) ∧
    (∀ d e, offline = false → E.envVar "SQLX_OFFLINE_DIR" = some d →
        (num_parameters data.describe = none ∨
          num_parameters data.describe = some input.arg_exprs.length) →
        (∃ args, E.quote_args input data.describe = .ok args) →
        (∃ out, compute_output E input data.describe = .ok out) →
        E.fs_metadata [d] = .error e →
        (e.kind = .notFound →
          expand_with_data E input data offline
            = .error (.message (offlinePathNotExistMsg d))) ∧
        (e.kind ≠ .notFound →
          expand_with_data E input data offline
            = .error (.message (fsMetadataErrMsg e d)))) ∧
    (∀ d m, offline = false → E.envVar "SQLX_OFFLINE_DIR" = some d →
        (num_parameters data.describe = none ∨
          num_parameters data.describe = some input.arg_exprs.length) →
        (∃ args, E.quote_args input data.describe = .ok args) →
        (∃ out, compute_output E input data.describe = .ok out) →
        E.fs_metadata [d] = .ok m → m.is_dir = false →
        expand_with_data E input data offline
          = .error (.message (offlinePathNotDirMsg d))) := by
  refine ⟨?_, ?_, ?_⟩
  · intro b ws h hne
    exact persist_writes_spec E data offline ws (expand_ok_persist E input data offline b ws h) hne
  · rintro d e hoff hdir harity ⟨args, hargs⟩ ⟨out, hout⟩ hfs
    subst hoff
    rw [expand_pass E input data false harity]
    unfold expand_checked persist_data
    constructor
    · intro hk
      simp [hargs, hout, hdir, hfs, hk]
    · intro hk
      have hkb : (e.kind != IoErrorKind.notFound) = true := by
        cases ek : e.kind with
        | notFound => exact absurd ek hk
        | other => rfl
      simp [hargs, hout, hdir, hfs, hkb]
  · rintro d m hoff hdir harity ⟨args, hargs⟩ ⟨out, hout⟩ hfs hdirflag
    subst hoff
    rw [expand_pass E input data false harity]
    unfold expand_checked persist_data
    simp [hargs, hout, hdir, hfs, hdirflag]

/-- Witness for C6 at concrete inputs: online expansion with
`SQLX_OFFLINE_DIR=sqlx-cache` fails when the directory is missing and when
the path is not a directory, and when the directory exists the successful
expansion's only write is to that directory. -/
theorem persist_write_conditions_witness :
    expand_with_data missingDirMacroEnv someInput { describe := oneColDescribe } false
      = .error (.message "sqlx offline path does not exist: sqlx-cache") ∧
    expand_with_data notDirMacroEnv someInput { describe := oneColDescribe } false
      = .error (.message "sqlx offline path exists, but is not a directory: sqlx-cache") ∧
    (false = false ∧ ∃ d, goodDirMacroEnv.envVar "SQLX_OFFLINE_DIR" = some d ∧
        ([["sqlx-cache"]] : List (List String)) = [[d]]) := by
  refine ⟨?_, ?_, ?_⟩
  · have h := ((persist_write_conditions missingDirMacroEnv someInput
      { describe := oneColDescribe } false).2.1 "sqlx-cache"
      { kind := .notFound, msg := "No such file or directory" }
      rfl rfl (Or.inl rfl) ⟨"args tokens", rfl⟩
      ⟨.generated_record [{ ident := "id", type_ := .typed "INT4" }] "query_as tokens", rfl⟩
      rfl).1 rfl
    simpa [offlinePathNotExistMsg] using h
  · have h := (persist_write_conditions notDirMacroEnv someInput
      { describe := oneColDescribe } false).2.2 "sqlx-cache" { is_dir := false }
      rfl rfl (Or.inl rfl) ⟨"args tokens", rfl⟩
      ⟨.generated_record [{ ident := "id", type_ := .typed "INT4" }] "query_as tokens", rfl⟩
      rfl rfl
    simpa [offlinePathNotDirMsg] using h
  · exact (persist_write_conditions goodDirMacroEnv someInput
      { describe := oneColDescribe } false).1
      { args_tokens := "args tokens",
        output := .generated_record [{ ident := "id", type_ := .typed "INT4" }] "query_as tokens" }
      [["sqlx-cache"]] rfl (by simp)

/-- C8: in generated-record shape (with at least one non-void column, so the
record shape is consulted), expansion fails with the wildcard error whenever
any inferred column type is an unresolved wildcard and produces no binding;
when no column is a wildcard, the synthesized record's field list is exactly
the column list produced by `columns_to_rust` — one field per entry, in
column order. -/
theorem generated_record_wildcard_check {α : Type} (E : MacroEnv α)
    (input : QueryMacroInput) (data : QueryData) (offline : Bool) (args : α)
    (cols : List RustColumn)
    (hrt : input.record_type = .generated)
    (hnonvoid : data.describe.columns.all (fun c => c.type_info.is_void) = false)
    (harity : num_parameters data.describe = none ∨
        num_parameters data.describe = some input.arg_exprs.length)
    (hargs : E.quote_args input data.describe = .ok args)
    (hcols : E.columns_to_rust data.describe = .ok cols) :
    (cols.any (fun c => c.type_.is_wildcard) = true →
        expand_with_data E input data offline = .error (.message wildcardErrorMsg)) ∧
    (∀ ws, cols.any (fun c => c.type_.is_wildcard) = false →
        persist_data E data offline = .ok ws →
        expand_with_data E input data offline
          = .ok ({ args_tokens := args,
                   output := .generated_record cols (E.quote_query_as input "Record" cols) },
                 ws)) := by
  have hpass := expand_pass E input data offline harity
  constructor
  · intro hw
    rw [hpass]
    unfold expand_checked compute_output
    simp [hargs, hnonvoid, hrt, hcols, hw]
  · intro ws hw hpersist
    rw [hpass]
    unfold expand_checked compute_output
    simp [hargs, hnonvoid, hrt, hcols, hw, hpersist]

/-- Witness for C8 at concrete inputs: a generated-record expansion over one
non-void column fails when the inferred type is a wildcard and, with a
concrete inferred type, synthesizes a one-field record. -/
theorem generated_record_wildcard_check_witness :
    expand_with_data wildcardMacroEnv someInput { describe := oneColDescribe } true
      = .error (.message wildcardErrorMsg) ∧
    expand_with_data trivialMacroEnv someInput { describe := oneColDescribe } true
      = .ok ({ args_tokens := "args tokens",
               output := .generated_record [{ ident := "id", type_ := .typed "INT4" }]
                 "query_as tokens" }, []) := by
  constructor
  · exact (generated_record_wildcard_check wildcardMacroEnv someInput
      { describe := oneColDescribe } true "args tokens"
      [{ ident := "x", type_ := .wildcard }] rfl rfl (Or.inl rfl) rfl rfl).1 rfl
  · exact (generated_record_wildcard_check trivialMacroEnv someInput
      { describe := oneColDescribe } true "args tokens"
      [{ ident := "id", type_ := .typed "INT4" }] rfl rfl (Or.inl rfl) rfl rfl).2 [] rfl rfl

/-- C9: when every column's type tag reports void — vacuously including an
empty column list — expansion emits the result-discarding `query_with`
binding for every requested record shape; in particular a scalar request
over zero columns succeeds with the void binding instead of failing the
one-column check (the conclusion does not depend on `quote_query_scalar` or
`columns_to_rust` at all). -/
theorem void_columns_discard_output {α : Type} (E : MacroEnv α)
    (input : QueryMacroInput) (data : QueryData) (offline : Bool) (args : α)
    (ws : List (List String))
    (hvoid : data.describe.columns.all (fun c => c.type_info.is_void) = true)
    (harity : num_parameters data.describe = none ∨
        num_parameters data.describe = some input.arg_exprs.length)
    (hargs : E.quote_args input data.describe = .ok args)
    (hpersist : persist_data E data offline = .ok ws) :
    expand_with_data E input data offline
      = .ok ({ args_tokens := args, output := .query_with }, ws) := by
  rw [expand_pass E input data offline harity]
  unfold expand_checked compute_output
  simp [hargs, hvoid, hpersist]

/-- Witness for C9 at concrete inputs: a scalar request over zero columns
(offline, so no persistence) succeeds with the void binding. -/
theorem void_columns_discard_output_witness :
    expand_with_data trivialMacroEnv scalarInput { describe := emptyDescribe } true
      = .ok ({ args_tokens := "args tokens", output := .query_with }, []) :=
  void_columns_discard_output trivialMacroEnv scalarInput
    { describe := emptyDescribe } true "args tokens" [] rfl (Or.inl rfl) rfl rfl

/-- C10: an online expansion with `SQLX_OFFLINE_DIR` unset performs no cache
write at all and still returns the generated binding successfully — the
write list is empty and no persistence error is possible. -/
theorem online_no_dir_no_write {α : Type} (E : MacroEnv α)
    (input : QueryMacroInput) (data : QueryData) (args : α) (out : QueryOutput α)
    (harity : num_parameters data.describe = none ∨
        num_parameters data.describe = some input.arg_exprs.length)
    (hargs : E.quote_args input data.describe = .ok args)
    (hout : compute_output E input data.describe = .ok out)
    (hdir : E.envVar "SQLX_OFFLINE_DIR" = none) :
    expand_with_data E input data false
      = .ok ({ args_tokens := args, output := out }, []) := by
  rw [expand_pass E input data false harity]
  unfold expand_checked persist_data
  simp [hargs, hout, hdir]

/-- Witness for C10 at concrete inputs: an online expansion over one column
with no `SQLX_OFFLINE_DIR` succeeds and writes nothing. -/
theorem online_no_dir_no_write_witness :
    expand_with_data trivialMacroEnv someInput { describe := oneColDescribe } false
      = .ok ({ args_tokens := "args tokens",
               output := .generated_record [{ ident := "id", type_ := .typed "INT4" }]
                 "query_as tokens" }, []) :=
  online_no_dir_no_write trivialMacroEnv someInput { describe := oneColDescribe }
    "args tokens"
    (.generated_record [{ ident := "id", type_ := .typed "INT4" }] "query_as tokens")
    (Or.inl rfl) rfl rfl rfl

end Sqlx
